import Mathlib

/-!
Verification development for the recifind backend (`src/server.js`).

The server is a thin Express app over two collaborators: a relational
store holding the `favorites` table and a generative-AI API.  We embed
the four interesting route handlers as pure Lean functions over an
explicit table state, with each external collaborator's outcome passed
in as an argument (`Bool` for the persistence collaborator, an
`Except` result for the AI collaborator).
-/

namespace Recifind

/-- JavaScript numbers as far as the handlers observe them: either an
integer value or the invalid number `NaN` (produced by `parseInt` on a
non-numeric string).  Fractional values never arise in the embedded
code paths. -/
inductive JSNum where
  | nan : JSNum
  | int : Int → JSNum
deriving DecidableEq, Repr

/-- JavaScript values as they occur in JSON request bodies: reading an
absent property of `req.body` yields `undefined`. -/
inductive JSValue where
  | undefined : JSValue
  | null : JSValue
  | bool : Bool → JSValue
  | num : JSNum → JSValue
  | str : String → JSValue
  | arr : List JSValue → JSValue
  | obj : List (String × JSValue) → JSValue
deriving Repr

/-- JavaScript truthiness, as tested by `!userId || !recipeId || !title`
in the add-favorite handler: `undefined`, `null`, `false`, `NaN`, `0`
and the empty string are falsy; every other value (including empty
arrays and objects) is truthy. -/
def truthy : JSValue → Bool
  | .undefined => false
  | .null => false
  | .bool b => b
  | .num .nan => false
  | .num (.int i) => i != 0
  | .str s => s != ""
  | .arr _ => true
  | .obj _ => true

/-- Value of a single decimal or hexadecimal digit character. -/
def digitVal (radix : Nat) (c : Char) : Option Nat :=
  if radix == 16 then
    if '0' ≤ c ∧ c ≤ '9' then some (c.toNat - '0'.toNat)
    else if 'a' ≤ c ∧ c ≤ 'f' then some (c.toNat - 'a'.toNat + 10)
    else if 'A' ≤ c ∧ c ≤ 'F' then some (c.toNat - 'A'.toNat + 10)
    else none
  else
    if '0' ≤ c ∧ c ≤ '9' then some (c.toNat - '0'.toNat) else none

/-- Accumulate the longest leading run of digits of the given radix,
returning `none` when there is no leading digit at all. -/
def takeDigits (radix : Nat) : List Char → Option Nat → Option Nat
  | [], acc => acc
  | c :: cs, acc =>
    match digitVal radix c with
    | some d => takeDigits radix cs (some ((acc.getD 0) * radix + d))
    | none => acc

/-- JavaScript's `parseInt(s)` with no explicit radix: skip leading
whitespace, read an optional sign, detect a `0x`/`0X` prefix (radix 16,
else 10), then convert the longest leading digit run; if no digit is
found the result is `NaN`. -/
def parseIntJS (s : String) : JSNum :=
  let cs := s.data.dropWhile Char.isWhitespace
  let (neg, cs) :=
    match cs with
    | '-' :: rest => (true, rest)
    | '+' :: rest => (false, rest)
    | _ => (false, cs)
  let (radix, cs) :=
    match cs with
    | '0' :: 'x' :: rest => (16, rest)
    | '0' :: 'X' :: rest => (16, rest)
    | _ => (10, cs)
  match takeDigits radix cs none with
  | none => .nan
  | some n => .int (if neg then -(n : Int) else (n : Int))

/-- A stored row of the `favorites` table.  `id` is the system-generated
surrogate key; the six payload columns hold exactly what the add
handler passed to `db.insert(favoritesTable).values({...})`.
Modelled from the spec: the table schema itself (`src/db/schema.js`) is
not part of the provided sources, so the row carries the generated `id`
and the six submitted fields of spec section 3 (`createdAt` is omitted:
no claim concerns it). -/
structure FavoriteRow where
  id : Nat
  userId : JSValue
  recipeId : JSValue
  title : JSValue
  image : JSValue
  cookTime : JSValue
  servings : JSValue

/-- State owned by the persistence collaborator: the stored rows plus
the next value of the generated surrogate key. -/
structure DB where
  rows : List FavoriteRow
  nextId : Nat

/-- Modelled from the spec: the persistence collaborator's equality test
`eq(favoritesTable.userId, userId)` between the stored `userId` column
(an opaque identifier string) and a path-parameter string. -/
def eqStrCol (v : JSValue) (s : String) : Bool :=
  match v with
  | .str t => t == s
  | _ => false

/-- Modelled from the spec: the persistence collaborator's equality test
`eq(favoritesTable.recipeId, n)` between the stored integer `recipeId`
column and a JavaScript number; per spec section 4.1 a comparison
against the invalid number matches zero rows. -/
def eqIntCol (v : JSValue) (n : JSNum) : Bool :=
  match n with
  | .nan => false
  | .int i =>
    match v with
    | .num (.int j) => j == i
    | _ => false

/-- The destructured body of a POST /api/favorites request: each of the
six properties read by the handler, `undefined` when absent. -/
structure AddBody where
  userId : JSValue
  recipeId : JSValue
  title : JSValue
  image : JSValue
  cookTime : JSValue
  servings : JSValue

/-- Observable outcome of the add-favorite handler: HTTP status, the
JSON-serialised inserted record or error message, the table state
afterwards, and whether `db.insert` was reached at all. -/
structure PostResult where
  status : Nat
  record : Option FavoriteRow
  error : Option String
  db : DB
  insertAttempted : Bool

/-- The POST /api/favorites handler (`server.js` lines 26-51): reject
with 400 before any persistence attempt when `userId`, `recipeId` or
`title` is falsy; otherwise insert one row carrying the six submitted
values and the generated key and answer 201 with the stored record
(`.returning()`); a persistence failure (`ok = false`) is caught and
answered 500 with the table unchanged. -/
def postFavorites (body : AddBody) (db : DB) (ok : Bool) : PostResult :=
  if !truthy body.userId || !truthy body.recipeId || !truthy body.title then
    { status := 400, record := none, error := some "Missing required fields",
      db := db, insertAttempted := false }
  else if ok then
    let row : FavoriteRow :=
      { id := db.nextId, userId := body.userId, recipeId := body.recipeId,
        title := body.title, image := body.image, cookTime := body.cookTime,
        servings := body.servings }
    { status := 201, record := some row, error := none,
      db := { rows := db.rows ++ [row], nextId := db.nextId + 1 },
      insertAttempted := true }
  else
    { status := 500, record := none, error := some "Something went wrong",
      db := db, insertAttempted := true }

/-- Observable outcome of the list-favorites handler. -/
structure GetResult where
  status : Nat
  favorites : Option (List FavoriteRow)
  error : Option String

/-- The GET /api/favorites/:userId handler (`server.js` lines 54-68):
select every stored row whose `userId` column equals the path
parameter; a persistence failure is caught and answered 500. -/
def getFavorites (userId : String) (db : DB) (ok : Bool) : GetResult :=
  if ok then
    { status := 200,
      favorites := some (db.rows.filter (fun r => eqStrCol r.userId userId)),
      error := none }
  else
    { status := 500, favorites := none, error := some "Something went wrong" }

/-- Observable outcome of the delete-favorite handler. -/
structure DeleteResult where
  status : Nat
  message : Option String
  error : Option String
  db : DB

/-- Does a stored row match the delete condition
`and(eq(userId, u), eq(recipeId, parseInt(seg)))`? -/
def deleteMatches (u : String) (seg : String) (r : FavoriteRow) : Bool :=
  eqStrCol r.userId u && eqIntCol r.recipeId (parseIntJS seg)

/-- The DELETE /api/favorites/:userId/:recipeId handler (`server.js`
lines 71-89): remove every row whose `userId` equals the first path
parameter and whose `recipeId` equals `parseInt` of the second, then
answer 200 with a success message regardless of how many rows matched;
a persistence failure is caught and answered 500. -/
def deleteFavorites (u : String) (seg : String) (db : DB) (ok : Bool) :
    DeleteResult :=
  if ok then
    { status := 200, message := some "Favorite removed successfully",
      error := none,
      db := { db with rows := db.rows.filter (fun r => !deleteMatches u seg r) } }
  else
    { status := 500, message := none, error := some "Something went wrong",
      db := db }

/-- JSON escaping of one character inside a quoted string, as produced
by `JSON.stringify` for the characters the model covers. -/
def escapeChar (c : Char) : String :=
  if c == '"' then "\\\""
  else if c == '\\' then "\\\\"
  else if c == '\n' then "\\n"
  else if c == '\t' then "\\t"
  else if c == '\r' then "\\r"
  else String.singleton c

/-- A JSON string literal: quotes around the escaped characters. -/
def jsonQuote (s : String) : String :=
  "\"" ++ String.join (s.data.map escapeChar) ++ "\""

mutual

/-- Modelled from the spec: `JSON.stringify`, the verbatim JSON
serialisation interpolated into both AI prompts.  `undefined` has no
serialisation (`none`): it becomes `null` inside an array and its
property is dropped inside an object, and `NaN` serialises as `null`. -/
def jsonStringify : JSValue → Option String
  | .undefined => none
  | .null => some "null"
  | .bool true => some "true"
  | .bool false => some "false"
  | .num .nan => some "null"
  | .num (.int i) => some (toString i)
  | .str s => some (jsonQuote s)
  | .arr xs => some ("[" ++ String.intercalate "," (stringifyElems xs) ++ "]")
  | .obj fs => some ("\x7b" ++ String.intercalate "," (stringifyProps fs) ++ "\x7d")

/-- Serialise array elements; an `undefined` element prints as `null`. -/
def stringifyElems : List JSValue → List String
  | [] => []
  | x :: xs => (jsonStringify x).getD "null" :: stringifyElems xs

/-- Serialise object properties; a property whose value has no
serialisation is omitted. -/
def stringifyProps : List (String × JSValue) → List String
  | [] => []
  | (k, v) :: fs =>
    match jsonStringify v with
    | none => stringifyProps fs
    | some sv => (jsonQuote k ++ ":" ++ sv) :: stringifyProps fs

end

/-- Skip JSON whitespace. -/
def skipWs (cs : List Char) : List Char :=
  cs.dropWhile (fun c => c == ' ' || c == '\n' || c == '\t' || c == '\r')

/-- Parse the remainder of a JSON string literal after its opening
quote, returning the decoded string and the input after the closing
quote. -/
def parseStrBody : List Char → String → Option (String × List Char)
  | [], _ => none
  | c :: cs, acc =>
    if c == '"' then some (acc, cs)
    else if c == '\\' then
      match cs with
      | [] => none
      | d :: rest =>
        if d == '"' then parseStrBody rest (acc.push '"')
        else if d == '\\' then parseStrBody rest (acc.push '\\')
        else if d == '/' then parseStrBody rest (acc.push '/')
        else if d == 'n' then parseStrBody rest (acc.push '\n')
        else if d == 't' then parseStrBody rest (acc.push '\t')
        else if d == 'r' then parseStrBody rest (acc.push '\r')
        else none
    else parseStrBody cs (acc.push c)

/-- Parse a run of decimal digits (`seen` records whether at least one
digit has been read). -/
def parseNatJson : List Char → Nat → Bool → Option (Nat × List Char)
  | [], acc, seen => if seen then some (acc, []) else none
  | c :: cs, acc, seen =>
    if '0' ≤ c ∧ c ≤ '9' then
      parseNatJson cs (acc * 10 + (c.toNat - '0'.toNat)) true
    else if seen then some (acc, c :: cs) else none

mutual

/-- Modelled from the spec: one JSON value, as read by `JSON.parse` in
the quiz route.  Fuel bounds the recursion depth; numbers are
restricted to integers (the embedding carries no floating point). -/
def parseVal : Nat → List Char → Option (JSValue × List Char)
  | 0, _ => none
  | fuel + 1, cs =>
    match skipWs cs with
    | 'n' :: 'u' :: 'l' :: 'l' :: rest => some (.null, rest)
    | 't' :: 'r' :: 'u' :: 'e' :: rest => some (.bool true, rest)
    | 'f' :: 'a' :: 'l' :: 's' :: 'e' :: rest => some (.bool false, rest)
    | '"' :: rest =>
      match parseStrBody rest "" with
      | some (s, rest2) => some (.str s, rest2)
      | none => none
    | '[' :: rest =>
      match skipWs rest with
      | ']' :: rest2 => some (.arr [], rest2)
      | rest2 =>
        match parseElems fuel rest2 with
        | some (xs, rest3) => some (.arr xs, rest3)
        | none => none
    | '\x7b' :: rest =>
      match skipWs rest with
      | '\x7d' :: rest2 => some (.obj [], rest2)
      | rest2 =>
        match parseProps fuel rest2 with
        | some (ps, rest3) => some (.obj ps, rest3)
        | none => none
    | '-' :: rest =>
      match parseNatJson rest 0 false with
      | some (n, rest2) => some (.num (.int (-(n : Int))), rest2)
      | none => none
    | cs2 =>
      match parseNatJson cs2 0 false with
      | some (n, rest2) => some (.num (.int (n : Int)), rest2)
      | none => none

/-- Parse the comma-separated elements of a non-empty JSON array up to
and including the closing bracket. -/
def parseElems : Nat → List Char → Option (List JSValue × List Char)
  | 0, _ => none
  | fuel + 1, cs =>
    match parseVal fuel cs with
    | none => none
    | some (v, rest) =>
      match skipWs rest with
      | ',' :: rest2 =>
        match parseElems fuel rest2 with
        | some (vs, rest3) => some (v :: vs, rest3)
        | none => none
      | ']' :: rest2 => some ([v], rest2)
      | _ => none

/-- Parse the comma-separated properties of a non-empty JSON object up
to and including the closing brace. -/
def parseProps : Nat → List Char → Option (List (String × JSValue) × List Char)
  | 0, _ => none
  | fuel + 1, cs =>
    match skipWs cs with
    | '"' :: rest =>
      match parseStrBody rest "" with
      | none => none
      | some (k, rest2) =>
        match skipWs rest2 with
        | ':' :: rest3 =>
          match parseVal fuel rest3 with
          | none => none
          | some (v, rest4) =>
            match skipWs rest4 with
            | ',' :: rest5 =>
              match parseProps fuel rest5 with
              | some (ps, rest6) => some ((k, v) :: ps, rest6)
              | none => none
            | '\x7d' :: rest5 => some ([(k, v)], rest5)
            | _ => none
        | _ => none
    | _ => none

end

/-- Modelled from the spec: `JSON.parse` applied to the AI
collaborator's returned text; `none` is a parse failure (a thrown
exception in JavaScript). -/
def parseJson (s : String) : Option JSValue :=
  match parseVal (s.length + 1) s.data with
  | some (v, rest) => if (skipWs rest).isEmpty then some v else none
  | none => none

/-- Observable outcome of the chat handler: HTTP status, the body
fields, and the prompt handed to the AI collaborator. -/
structure ChatResult where
  status : Nat
  response : Option String
  error : Option String
  promptSent : String

/-- The prompt assembled by the chat route (`server.js` lines 100-102):
fixed persona text, the verbatim JSON serialisation of `recipeContext`,
and the user's message in quotes. -/
def chatPrompt (recipeContext : JSValue) (userMessage : String) : String :=
  "You are a helpful cooking assistant named Recifind AI. You are helping a user with the following recipe details: "
    ++ (jsonStringify recipeContext).getD "undefined"
    ++ ". Respond to the user's question: \"" ++ userMessage ++ "\""

/-- The POST /api/ai/chat handler (`server.js` lines 94-118): build the
prompt, send it to the AI collaborator, answer 200 with the raw
generated text on success and 500 on a thrown collaborator error. -/
def postAiChat (recipeContext : JSValue) (userMessage : String)
    (ai : String → Except Unit String) : ChatResult :=
  match ai (chatPrompt recipeContext userMessage) with
  | .ok text =>
    { status := 200, response := some text, error := none,
      promptSent := chatPrompt recipeContext userMessage }
  | .error _ =>
    { status := 500, response := none,
      error := some "Failed to get response from AI.",
      promptSent := chatPrompt recipeContext userMessage }

/-- Observable outcome of the quiz handler. -/
structure QuizResult where
  status : Nat
  quiz : Option JSValue
  error : Option String
  promptSent : String

/-- The prompt assembled by the quiz route (`server.js` lines 162-165). -/
def quizPrompt (recipeContext : JSValue) : String :=
  "You are Recifind AI, an expert at creating fun and educational quizzes about recipes. \n"
    ++ "Based *only* on the following recipe details, generate exactly 5 multiple-choice quiz questions. The quiz should test the user's knowledge about the recipe's key ingredients, main steps, category, or origin. Each question must have exactly 4 options, and the correct answer must be one of those options. You must provide an explanation for the correct answer.\n\n"
    ++ "Recipe Details: " ++ (jsonStringify recipeContext).getD "undefined"

/-- The POST /api/ai/quiz handler (`server.js` lines 123-185): build
the prompt, send it to the AI collaborator, `JSON.parse` the returned
text and answer 200 wrapping the parsed data; a thrown collaborator
error or a parse failure is caught and answered 500. -/
def postAiQuiz (recipeContext : JSValue) (ai : String → Except Unit String) :
    QuizResult :=
  match ai (quizPrompt recipeContext) with
  | .error _ =>
    { status := 500, quiz := none,
      error := some "Failed to generate quiz from AI.",
      promptSent := quizPrompt recipeContext }
  | .ok text =>
    match parseJson text with
    | some quizData =>
      { status := 200, quiz := some quizData, error := none,
        promptSent := quizPrompt recipeContext }
    | none =>
      { status := 500, quiz := none,
        error := some "Failed to generate quiz from AI.",
        promptSent := quizPrompt recipeContext }

/-- First value bound to a property name in a parsed JSON object. -/
def lookupProp (fs : List (String × JSValue)) (k : String) : Option JSValue :=
  match fs with
  | [] => none
  | (k2, v) :: rest => if k2 == k then some v else lookupProp rest k

/-- Is the value a JSON string? -/
def isStr : JSValue → Bool
  | .str _ => true
  | _ => false

/-- Is the value a JSON array of strings? -/
def isStrArr : JSValue → Bool
  | .arr xs => xs.all isStr
  | _ => false

/-- Conformance of one quiz item to the `responseSchema` of the quiz
route (`server.js` lines 130-159): an object with exactly the four
required properties `question`, `options`, `correctAnswer` and
`explanation`, where `options` is an array of strings and the other
three are strings. -/
def quizItemConformant (v : JSValue) : Bool :=
  match v with
  | .obj fs =>
    fs.length == 4 &&
    ((lookupProp fs "question").elim false isStr) &&
    ((lookupProp fs "options").elim false isStrArr) &&
    ((lookupProp fs "correctAnswer").elim false isStr) &&
    ((lookupProp fs "explanation").elim false isStr)
  | _ => false

/-- Conformance of a parsed AI reply to the quiz `responseSchema`: an
array each of whose elements is a conformant quiz item. -/
def quizConformant (v : JSValue) : Bool :=
  match v with
  | .arr items => items.all quizItemConformant
  | _ => false

/-- A truthy JavaScript value is in particular present (not `undefined`). -/
theorem truthy_present {v : JSValue} (h : truthy v = true) :
    v ≠ JSValue.undefined := by
  intro hv
  rw [hv] at h
  simp [truthy] at h

/-- Presence of the three required fields on every stored row: the
invariant of spec section 3 on the `favorites` table. -/
def FavInvariant (db : DB) : Prop :=
  ∀ r ∈ db.rows,
    r.userId ≠ JSValue.undefined ∧ r.recipeId ≠ JSValue.undefined ∧
    r.title ≠ JSValue.undefined

/-- C1: an add-favorite request missing `userId`, `recipeId` or `title`
(reading the absent property yields `undefined`) is answered 400 with
the static message, no record is returned, the table is unchanged, and
the insert is never attempted — whatever the persistence collaborator
would have done. -/
theorem post_missing_field_rejected (body : AddBody) (db : DB) (ok : Bool)
    (h : body.userId = JSValue.undefined ∨ body.recipeId = JSValue.undefined ∨
      body.title = JSValue.undefined) :
    (postFavorites body db ok).status = 400 ∧
    (postFavorites body db ok).error = some "Missing required fields" ∧
    (postFavorites body db ok).record = none ∧
    (postFavorites body db ok).db = db ∧
    (postFavorites body db ok).insertAttempted = false := by
  unfold postFavorites
  rcases h with h | h | h <;> rw [h] <;> simp [truthy]

/-- Witness for C1 at the concrete body `{recipeId: 7, title: "Soup"}`
with `userId` absent. -/
theorem post_missing_field_rejected_witness :
    (postFavorites
      ⟨JSValue.undefined, .num (.int 7), .str "Soup", .undefined, .undefined,
        .undefined⟩ ⟨[], 0⟩ true).status = 400 ∧
    (postFavorites
      ⟨JSValue.undefined, .num (.int 7), .str "Soup", .undefined, .undefined,
        .undefined⟩ ⟨[], 0⟩ true).error = some "Missing required fields" ∧
    (postFavorites
      ⟨JSValue.undefined, .num (.int 7), .str "Soup", .undefined, .undefined,
        .undefined⟩ ⟨[], 0⟩ true).record = none ∧
    (postFavorites
      ⟨JSValue.undefined, .num (.int 7), .str "Soup", .undefined, .undefined,
        .undefined⟩ ⟨[], 0⟩ true).db = ⟨[], 0⟩ ∧
    (postFavorites
      ⟨JSValue.undefined, .num (.int 7), .str "Soup", .undefined, .undefined,
        .undefined⟩ ⟨[], 0⟩ true).insertAttempted = false :=
  post_missing_field_rejected _ _ _ (Or.inl rfl)

/-- C2: an add-favorite request whose three required fields are truthy,
when the persistence collaborator succeeds, appends exactly one row to
the table and answers 201 with the full stored record: the generated
surrogate key together with the six submitted field values. -/
theorem post_valid_inserts_one_row (body : AddBody) (db : DB)
    (hu : truthy body.userId = true) (hr : truthy body.recipeId = true)
    (ht : truthy body.title = true) :
    (postFavorites body db true).status = 201 ∧
    ∃ row, (postFavorites body db true).record = some row ∧
      (postFavorites body db true).db.rows = db.rows ++ [row] ∧
      row.id = db.nextId ∧ row.userId = body.userId ∧
      row.recipeId = body.recipeId ∧ row.title = body.title ∧
      row.image = body.image ∧ row.cookTime = body.cookTime ∧
      row.servings = body.servings := by
  unfold postFavorites
  rw [hu, hr, ht]
  exact ⟨rfl, _, rfl, rfl, rfl, rfl, rfl, rfl, rfl, rfl, rfl⟩

/-- Witness for C2 at the spec's example body
`{userId: "u1", recipeId: 7, title: "Soup"}` on the empty table. -/
theorem post_valid_inserts_one_row_witness :
    (postFavorites
      ⟨.str "u1", .num (.int 7), .str "Soup", .undefined, .undefined,
        .undefined⟩ ⟨[], 0⟩ true).status = 201 ∧
    ∃ row, (postFavorites
        ⟨.str "u1", .num (.int 7), .str "Soup", .undefined, .undefined,
          .undefined⟩ ⟨[], 0⟩ true).record = some row ∧
      (postFavorites
        ⟨.str "u1", .num (.int 7), .str "Soup", .undefined, .undefined,
          .undefined⟩ ⟨[], 0⟩ true).db.rows = [] ++ [row] ∧
      row.id = 0 ∧ row.userId = .str "u1" ∧ row.recipeId = .num (.int 7) ∧
      row.title = .str "Soup" ∧ row.image = .undefined ∧
      row.cookTime = .undefined ∧ row.servings = .undefined :=
  post_valid_inserts_one_row _ ⟨[], 0⟩ rfl rfl rfl

/-- C10: the guard `!userId || !recipeId || !title` is a truthiness
test, strictly stronger than a presence check: a request whose required
field is present but falsy (`0`, the empty string, `false`, `null`,
`NaN`) is also answered 400 with no write and no insert attempt. -/
theorem post_falsy_present_rejected (body : AddBody) (db : DB) (ok : Bool)
    (h : (body.userId ≠ JSValue.undefined ∧ truthy body.userId = false) ∨
      (body.recipeId ≠ JSValue.undefined ∧ truthy body.recipeId = false) ∨
      (body.title ≠ JSValue.undefined ∧ truthy body.title = false)) :
    (postFavorites body db ok).status = 400 ∧
    (postFavorites body db ok).error = some "Missing required fields" ∧
    (postFavorites body db ok).db = db ∧
    (postFavorites body db ok).insertAttempted = false := by
  unfold postFavorites
  rcases h with ⟨_, h⟩ | ⟨_, h⟩ | ⟨_, h⟩ <;> rw [h] <;> simp

/-- Witness for C10 at the present-but-falsy body
`{userId: "u1", recipeId: 0, title: "Soup"}`. -/
theorem post_falsy_present_rejected_witness :
    (postFavorites
      ⟨.str "u1", .num (.int 0), .str "Soup", .undefined, .undefined,
        .undefined⟩ ⟨[], 0⟩ true).status = 400 ∧
    (postFavorites
      ⟨.str "u1", .num (.int 0), .str "Soup", .undefined, .undefined,
        .undefined⟩ ⟨[], 0⟩ true).error = some "Missing required fields" ∧
    (postFavorites
      ⟨.str "u1", .num (.int 0), .str "Soup", .undefined, .undefined,
        .undefined⟩ ⟨[], 0⟩ true).db = ⟨[], 0⟩ ∧
    (postFavorites
      ⟨.str "u1", .num (.int 0), .str "Soup", .undefined, .undefined,
        .undefined⟩ ⟨[], 0⟩ true).insertAttempted = false :=
  post_falsy_present_rejected _ _ _
    (Or.inr (Or.inl ⟨fun h => JSValue.noConfusion h, rfl⟩))

/-- C9: the presence invariant on the stored table — `userId`,
`recipeId` and `title` present on every row — is preserved by the add
and delete handlers for every request and collaborator outcome (the
add handler only writes rows whose three required fields passed the
truthiness guard), and the list handler writes nothing and only ever
returns rows of the stored table, which therefore satisfy it. -/
theorem favorites_invariant_preserved (db : DB) (h : FavInvariant db) :
    (∀ body ok, FavInvariant (postFavorites body db ok).db) ∧
    (∀ u seg ok, FavInvariant (deleteFavorites u seg db ok).db) ∧
    (∀ u l, (getFavorites u db true).favorites = some l →
      ∀ r ∈ l, r.userId ≠ JSValue.undefined ∧
        r.recipeId ≠ JSValue.undefined ∧ r.title ≠ JSValue.undefined) := by
  refine ⟨?_, ?_, ?_⟩
  · intro body ok
    unfold postFavorites
    rcases hu : truthy body.userId with _ | _
    · simpa using h
    rcases hr : truthy body.recipeId with _ | _
    · simpa using h
    rcases ht : truthy body.title with _ | _
    · simpa using h
    rcases ok with _ | _
    · simpa using h
    simp only [Bool.not_true, Bool.or_self, Bool.false_or, if_true, if_false,
      Bool.false_eq_true]
    intro r hr2
    simp only [List.mem_append, List.mem_singleton] at hr2
    rcases hr2 with hr2 | hr2
    · exact h r hr2
    · subst hr2
      exact ⟨truthy_present hu, truthy_present hr, truthy_present ht⟩
  · intro u seg ok
    unfold deleteFavorites
    rcases ok with _ | _
    · simpa using h
    intro r hr2
    exact h r (List.mem_filter.mp hr2).1
  · intro u l hl r hr2
    unfold getFavorites at hl
    simp only [if_true, Option.some.injEq] at hl
    subst hl
    simp only [List.mem_filter] at hr2
    exact h r hr2.1

/-- Witness for C9: the empty table satisfies the invariant and keeps
it across an add and a delete. -/
theorem favorites_invariant_preserved_witness :
    FavInvariant
      (postFavorites
        ⟨.str "u1", .num (.int 7), .str "Soup", .undefined, .undefined,
          .undefined⟩ ⟨[], 0⟩ true).db ∧
    FavInvariant (deleteFavorites "u1" "7" ⟨[], 0⟩ true).db :=
  ⟨(favorites_invariant_preserved ⟨[], 0⟩ (by intro r hr; cases hr)).1 _ true,
   (favorites_invariant_preserved ⟨[], 0⟩ (by intro r hr; cases hr)).2.1
     "u1" "7" true⟩

/-- C3: when the persistence collaborator succeeds, the list handler
answers 200 with exactly the stored rows whose `userId` column equals
the path parameter — a subsequence of the table containing precisely
the matching rows, with no pagination — and the empty array (not an
error) when no row matches. -/
theorem get_returns_matching (u : String) (db : DB) :
    (getFavorites u db true).status = 200 ∧
    ∃ l, (getFavorites u db true).favorites = some l ∧
      List.Sublist l db.rows ∧
      (∀ r, r ∈ l ↔ r ∈ db.rows ∧ eqStrCol r.userId u = true) ∧
      ((∀ r ∈ db.rows, eqStrCol r.userId u = false) → l = []) := by
  refine ⟨rfl, db.rows.filter (fun r => eqStrCol r.userId u), rfl,
    List.filter_sublist _, ?_, ?_⟩
  · intro r
    exact List.mem_filter
  · intro hnone
    apply List.filter_eq_nil_iff.mpr
    intro a ha
    simp [hnone a ha]

/-- Witness for C3: listing on the empty table answers 200 with the
empty array. -/
theorem get_returns_matching_witness :
    (getFavorites "u1" ⟨[], 0⟩ true).status = 200 ∧
    (getFavorites "u1" ⟨[], 0⟩ true).favorites = some [] := by
  obtain ⟨h1, l, hl, -, -, hnil⟩ := get_returns_matching "u1" ⟨[], 0⟩
  refine ⟨h1, ?_⟩
  rw [hl, hnil ?_]
  intro r hr
  cases hr

/-- C4: when the persistence collaborator succeeds, the delete handler
removes exactly the rows whose `userId` equals the path parameter and
whose `recipeId` equals the integer parsed from the second path
segment: the surviving rows are a subsequence of the table, a row
survives iff it is stored and does not match both fields, no matching
row survives, the number of removed rows is the number of matching
rows (so every other row, duplicates included, is kept), and the key
counter is untouched. -/
theorem delete_removes_exactly_matches (u seg : String) (db : DB) :
    List.Sublist (deleteFavorites u seg db true).db.rows db.rows ∧
    (∀ r, r ∈ (deleteFavorites u seg db true).db.rows ↔
      r ∈ db.rows ∧ ¬(eqStrCol r.userId u = true ∧
        eqIntCol r.recipeId (parseIntJS seg) = true)) ∧
    List.countP (deleteMatches u seg)
      (deleteFavorites u seg db true).db.rows = 0 ∧
    (deleteFavorites u seg db true).db.rows.length +
      List.countP (deleteMatches u seg) db.rows = db.rows.length ∧
    (deleteFavorites u seg db true).db.nextId = db.nextId := by
  have hrows : (deleteFavorites u seg db true).db.rows
      = db.rows.filter (fun r => !deleteMatches u seg r) := rfl
  refine ⟨List.filter_sublist _, ?_, ?_, ?_, rfl⟩
  · intro r
    rw [hrows, List.mem_filter]
    simp [deleteMatches, not_and]
    intro _
    rcases h1 : eqStrCol r.userId u with _ | _ <;>
      rcases h2 : eqIntCol r.recipeId (parseIntJS seg) with _ | _ <;> simp
  · apply List.countP_eq_zero.mpr
    intro a ha
    rw [hrows, List.mem_filter] at ha
    simp only [Bool.not_eq_true'] at ha
    simp [ha.2]
  · rw [hrows, ← List.countP_eq_length_filter]
    have h2 : List.countP (fun r => !deleteMatches u seg r) db.rows
        = List.countP (fun r => decide (¬deleteMatches u seg r = true))
            db.rows := by
      apply List.countP_congr
      intro a _
      simp
    have h3 := List.length_eq_countP_add_countP (p := deleteMatches u seg)
      (l := db.rows)
    omega

/-- Witness for C4: deleting `("u1", "7")` from a two-row table keeps
exactly the other favorite of the same user. -/
theorem delete_removes_exactly_matches_witness :
    (deleteFavorites "u1" "7"
      ⟨[⟨0, .str "u1", .num (.int 7), .str "Soup", .undefined, .undefined,
          .undefined⟩,
        ⟨1, .str "u1", .num (.int 8), .str "Pie", .undefined, .undefined,
          .undefined⟩], 2⟩ true).db.rows.length +
      List.countP (deleteMatches "u1" "7")
        [⟨0, .str "u1", .num (.int 7), .str "Soup", .undefined, .undefined,
           .undefined⟩,
         ⟨1, .str "u1", .num (.int 8), .str "Pie", .undefined, .undefined,
           .undefined⟩] = 2 ∧
    (⟨1, .str "u1", .num (.int 8), .str "Pie", .undefined, .undefined,
        .undefined⟩ : FavoriteRow) ∈
      (deleteFavorites "u1" "7"
        ⟨[⟨0, .str "u1", .num (.int 7), .str "Soup", .undefined, .undefined,
            .undefined⟩,
          ⟨1, .str "u1", .num (.int 8), .str "Pie", .undefined, .undefined,
            .undefined⟩], 2⟩ true).db.rows := by
  obtain ⟨-, hmem, -, hlen, -⟩ := delete_removes_exactly_matches "u1" "7"
    ⟨[⟨0, .str "u1", .num (.int 7), .str "Soup", .undefined, .undefined,
        .undefined⟩,
      ⟨1, .str "u1", .num (.int 8), .str "Pie", .undefined, .undefined,
        .undefined⟩], 2⟩
  refine ⟨hlen, (hmem _).mpr ⟨?_, ?_⟩⟩
  · simp
  · intro hc
    have : eqIntCol (.num (.int 8)) (parseIntJS "7") = true := hc.2
    simp [parseIntJS, takeDigits, digitVal, eqIntCol] at this

/-- C5: the delete handler answers 200 with the success message for
every table state — also when zero rows match — and, when the
persistence collaborator succeeds, running the same delete a second
time on the resulting state produces the identical response and state:
deletion is idempotent. -/
theorem delete_idempotent (u seg : String) (db : DB) :
    (deleteFavorites u seg db true).status = 200 ∧
    (deleteFavorites u seg db true).message
      = some "Favorite removed successfully" ∧
    deleteFavorites u seg (deleteFavorites u seg db true).db true
      = deleteFavorites u seg db true := by
  refine ⟨rfl, rfl, ?_⟩
  show deleteFavorites u seg
      ⟨db.rows.filter (fun r => !deleteMatches u seg r), db.nextId⟩ true
    = deleteFavorites u seg db true
  unfold deleteFavorites
  rw [if_pos rfl, if_pos rfl]
  simp [List.filter_filter]

/-- Witness for C5: deleting a pair absent from the empty table still
answers 200, and repeating the delete changes nothing. -/
theorem delete_idempotent_witness :
    (deleteFavorites "u9" "3" ⟨[], 0⟩ true).status = 200 ∧
    (deleteFavorites "u9" "3" ⟨[], 0⟩ true).message
      = some "Favorite removed successfully" ∧
    deleteFavorites "u9" "3" (deleteFavorites "u9" "3" ⟨[], 0⟩ true).db true
      = deleteFavorites "u9" "3" ⟨[], 0⟩ true :=
  delete_idempotent "u9" "3" ⟨[], 0⟩

/-- C6: a delete whose `recipeId` path segment parses to the invalid
number (`parseInt` finds no digit) is not rejected as a validation
error: the comparison matches zero rows, so when the persistence
collaborator succeeds the handler answers 200 with the success message
and the table is exactly unchanged. -/
theorem delete_non_numeric_noop (u seg : String) (db : DB)
    (h : parseIntJS seg = JSNum.nan) :
    (deleteFavorites u seg db true).status = 200 ∧
    (deleteFavorites u seg db true).message
      = some "Favorite removed successfully" ∧
    (deleteFavorites u seg db true).db = db := by
  refine ⟨rfl, rfl, ?_⟩
  show DB.mk (db.rows.filter fun r => !deleteMatches u seg r) db.nextId = db
  have hm : ∀ r : FavoriteRow, deleteMatches u seg r = false := by
    intro r
    unfold deleteMatches
    rw [h]
    simp [eqIntCol]
  simp [hm]

/-- Witness for C6: deleting with the non-numeric segment `"abc"`
leaves a one-row table untouched and answers 200. -/
theorem delete_non_numeric_noop_witness :
    parseIntJS "abc" = JSNum.nan ∧
    (deleteFavorites "u1" "abc"
      ⟨[⟨0, .str "u1", .num (.int 7), .str "Soup", .undefined, .undefined,
          .undefined⟩], 1⟩ true).status = 200 ∧
    (deleteFavorites "u1" "abc"
      ⟨[⟨0, .str "u1", .num (.int 7), .str "Soup", .undefined, .undefined,
          .undefined⟩], 1⟩ true).db
      = ⟨[⟨0, .str "u1", .num (.int 7), .str "Soup", .undefined, .undefined,
          .undefined⟩], 1⟩ :=
  ⟨rfl, (delete_non_numeric_noop "u1" "abc" _ rfl).1,
    (delete_non_numeric_noop "u1" "abc" _ rfl).2.2⟩

/-- C7 counterexample: when the AI collaborator succeeds with the empty
string as its generated text, the chat handler answers 200 but its
`response` field is the empty string — refuting the claim that the
response field is a non-empty string whenever the collaborator
succeeds. -/
theorem chat_nonempty_counterexample :
    (postAiChat JSValue.null "hi" (fun _ => Except.ok "")).status = 200 ∧
    (postAiChat JSValue.null "hi" (fun _ => Except.ok "")).response
      = some "" ∧
    ¬∃ s, (postAiChat JSValue.null "hi" (fun _ => Except.ok "")).response
        = some s ∧ s ≠ "" := by
  refine ⟨rfl, rfl, ?_⟩
  rintro ⟨s, hs, hne⟩
  exact hne (Option.some.inj hs).symm

/-- C7 (amended): for every `userMessage` and `recipeContext` the
prompt handed to the AI collaborator is the fixed persona text with the
verbatim JSON serialisation of `recipeContext` and the user's message
interpolated (no size bound); when the collaborator succeeds the
handler answers 200 with `response` equal to the collaborator's raw
generated text — hence non-empty whenever that text is non-empty — and
when the collaborator throws it answers 500 regardless of input. -/
theorem chat_contract (ctx : JSValue) (msg : String)
    (ai : String → Except Unit String) :
    (postAiChat ctx msg ai).promptSent
      = "You are a helpful cooking assistant named Recifind AI. You are helping a user with the following recipe details: "
        ++ (jsonStringify ctx).getD "undefined"
        ++ ". Respond to the user's question: \"" ++ msg ++ "\"" ∧
    (∀ text, ai ((postAiChat ctx msg ai).promptSent) = Except.ok text →
      (postAiChat ctx msg ai).status = 200 ∧
      (postAiChat ctx msg ai).response = some text ∧
      (text ≠ "" →
        ∃ s, (postAiChat ctx msg ai).response = some s ∧ s ≠ "")) ∧
    (∀ e, ai ((postAiChat ctx msg ai).promptSent) = Except.error e →
      (postAiChat ctx msg ai).status = 500 ∧
      (postAiChat ctx msg ai).response = none ∧
      (postAiChat ctx msg ai).error
        = some "Failed to get response from AI.") := by
  have hp : (postAiChat ctx msg ai).promptSent = chatPrompt ctx msg := by
    unfold postAiChat
    cases ai (chatPrompt ctx msg) <;> rfl
  refine ⟨hp, ?_, ?_⟩
  · intro text htext
    rw [hp] at htext
    unfold postAiChat
    rw [htext]
    exact ⟨rfl, rfl, fun hne => ⟨text, rfl, hne⟩⟩
  · intro e he
    rw [hp] at he
    unfold postAiChat
    rw [he]
    exact ⟨rfl, rfl, rfl⟩

/-- Witness for C7's amended theorem: a collaborator answering
`"Sure!"` yields 200 with that exact text. -/
theorem chat_contract_witness :
    (postAiChat JSValue.null "What now?"
      (fun _ => Except.ok "Sure!")).status = 200 ∧
    (postAiChat JSValue.null "What now?"
      (fun _ => Except.ok "Sure!")).response = some "Sure!" := by
  have h := (chat_contract JSValue.null "What now?"
    (fun _ => Except.ok "Sure!")).2.1 "Sure!" rfl
  exact ⟨h.1, h.2.1⟩

/-- C8: when the AI collaborator's returned text is schema-conformant
structured data — it parses as a JSON array each of whose elements is
an object with exactly the four required fields `question`, `options`,
`correctAnswer`, `explanation` of the right types — the quiz handler
answers 200 wrapping exactly that parsed array in `quiz`; when the
returned text is malformed, parsing fails and the handler answers 500
with the generic message; a thrown collaborator error is also a 500. -/
theorem quiz_contract (ctx : JSValue) (ai : String → Except Unit String) :
    (∀ text j, ai (quizPrompt ctx) = Except.ok text →
      parseJson text = some j → quizConformant j = true →
      (postAiQuiz ctx ai).status = 200 ∧
      ∃ items, j = JSValue.arr items ∧
        (postAiQuiz ctx ai).quiz = some (JSValue.arr items) ∧
        ∀ it ∈ items, quizItemConformant it = true) ∧
    (∀ text, ai (quizPrompt ctx) = Except.ok text →
      parseJson text = none →
      (postAiQuiz ctx ai).status = 500 ∧ (postAiQuiz ctx ai).quiz = none ∧
      (postAiQuiz ctx ai).error
        = some "Failed to generate quiz from AI.") ∧
    (∀ e, ai (quizPrompt ctx) = Except.error e →
      (postAiQuiz ctx ai).status = 500 ∧
      (postAiQuiz ctx ai).quiz = none) := by
  refine ⟨?_, ?_, ?_⟩
  · intro text j htext hparse hconf
    obtain ⟨items, rfl⟩ : ∃ items, j = JSValue.arr items := by
      rcases j with _ | _ | b | n | s | items | fs <;>
        simp [quizConformant] at hconf
      exact ⟨items, rfl⟩
    have hall : items.all quizItemConformant = true := hconf
    have hq : postAiQuiz ctx ai
        = { status := 200, quiz := some (JSValue.arr items), error := none,
            promptSent := quizPrompt ctx } := by
      unfold postAiQuiz
      rw [htext]
      show (match parseJson text with
        | some quizData =>
          ({ status := 200, quiz := some quizData, error := none,
             promptSent := quizPrompt ctx } : QuizResult)
        | none =>
          { status := 500, quiz := none,
            error := some "Failed to generate quiz from AI.",
            promptSent := quizPrompt ctx }) = _
      rw [hparse]
    rw [hq]
    exact ⟨rfl, items, rfl, rfl, fun it hit => List.all_eq_true.mp hall it hit⟩
  · intro text htext hparse
    have hq : postAiQuiz ctx ai
        = { status := 500, quiz := none,
            error := some "Failed to generate quiz from AI.",
            promptSent := quizPrompt ctx } := by
      unfold postAiQuiz
      rw [htext]
      show (match parseJson text with
        | some quizData =>
          ({ status := 200, quiz := some quizData, error := none,
             promptSent := quizPrompt ctx } : QuizResult)
        | none =>
          { status := 500, quiz := none,
            error := some "Failed to generate quiz from AI.",
            promptSent := quizPrompt ctx }) = _
      rw [hparse]
    rw [hq]
    exact ⟨rfl, rfl, rfl⟩
  · intro e he
    unfold postAiQuiz
    rw [he]
    exact ⟨rfl, rfl⟩

/-- A schema-conformant reply used to witness the quiz contract. -/
def sampleQuizText : String :=
  "[\x7b\"question\":\"q1\",\"options\":[\"a\",\"b\",\"c\",\"d\"],\"correctAnswer\":\"a\",\"explanation\":\"e\"\x7d]"

/-- The parse of `sampleQuizText`. -/
def sampleQuizValue : JSValue :=
  .arr [.obj [("question", .str "q1"),
    ("options", .arr [.str "a", .str "b", .str "c", .str "d"]),
    ("correctAnswer", .str "a"), ("explanation", .str "e")]]

/-- Witness for C8: a collaborator answering the concrete
schema-conformant text yields 200 with the parsed quiz array, every
element carrying the four required fields. -/
theorem quiz_contract_witness :
    (postAiQuiz JSValue.null (fun _ => Except.ok sampleQuizText)).status
      = 200 ∧
    ∃ items, (postAiQuiz JSValue.null
        (fun _ => Except.ok sampleQuizText)).quiz
        = some (JSValue.arr items) ∧
      ∀ it ∈ items, quizItemConformant it = true := by
  have h := (quiz_contract JSValue.null
    (fun _ => Except.ok sampleQuizText)).1 sampleQuizText sampleQuizValue
    rfl rfl rfl
  obtain ⟨h1, items, -, hq, hall⟩ := h
  exact ⟨h1, items, hq, hall⟩

end Recifind
